import Mathlib

/-!
Shallow embedding of the `unsilence` interval-rendering pipeline.

Source files modelled:
* `unsilence/lib/render_media/RenderIntervalThread.py` — the worker thread
  (`run`, `_render_interval`, `_get_fade_filter`, `_generate_command`,
  `clamp_speed`).
* `unsilence/Unsilence.py` — the session facade (`__init__`, `estimate_time`,
  `render_media`).

Modelling choices:
* Python floats are modelled as rationals (`ℚ`); all arithmetic the claims
  mention (division, comparison, subtraction) is exact on the inputs involved.
* Number-to-string rendering (`f"{x:.4f}"`, `f"{round(x, 4)}"`, `f"{x}"`) is
  delegated to an uninterpreted `FloatFmt` record, so command-structure
  theorems hold for every rendering of numerals.
* The external engine is an uninterpreted function from the attempt kind
  (`apply_filter : Bool`) to the console output, modelled as the list of
  lines of the combined stdout/stderr text.  The worker classifies the
  output by substring markers exactly as the source does.
* Exceptions (`IOError`, `ValueError`) become `Except.error`; the worker's
  per-iteration behaviour (lock handling, callback invocation) is recorded
  as an explicit event trace.
-/

namespace Unsilence

/-- An interval of the source media (`unsilence.lib.intervals.Interval`):
`start`/`endTime` in seconds plus the silent/audible tag.  The Python field
`end` is a reserved word in Lean, hence `endTime`. -/
structure Interval where
  start : ℚ
  endTime : ℚ
  is_silent : Bool
deriving DecidableEq

/-- `Interval.duration = end - start`, as in the Python property. -/
def Interval.duration (i : Interval) : ℚ := i.endTime - i.start

/-- The recognized render options carried by `render_options`
(a `SimpleNamespace` in the source). -/
structure RenderOptions where
  audible_speed : ℚ
  silent_speed : ℚ
  audible_volume : ℚ
  silent_volume : ℚ
  audio_only : Bool
  drop_corrupted_intervals : Bool
  check_intervals : Bool
  interval_in_fade_duration : ℚ
  interval_out_fade_duration : ℚ
  fade_curve : String

/-- Uninterpreted numeral-to-string renderers standing for the Python
formatting used in `_generate_command` / `_get_fade_filter`:
`fmt4` for `f"{x:.4f}"`, `fmtRound4` for `f"{round(x, 4)}"`,
`fmtStr` for plain `f"{x}"`. -/
structure FloatFmt where
  fmt4 : ℚ → String
  fmtRound4 : ℚ → String
  fmtStr : ℚ → String

/-- Whether `pat` occurs as a contiguous run inside the character list. -/
def occursIn (pat : List Char) : List Char → Bool
  | [] => pat.isPrefixOf []
  | c :: cs => pat.isPrefixOf (c :: cs) || occursIn pat cs

/-- Python's `pat in s` substring test. -/
def strContains (s pat : String) : Bool := occursIn pat.toList s.toList

/-- The console output of one engine invocation: the lines of
`str(console_output.stdout)`. -/
abbrev ConsoleOutput := List String

/-- The conversion-failure classification of `_render_interval`:
`"Conversion failed!" in str(console_output.stdout).splitlines()[-1]`. -/
def conversion_failed (console_output : ConsoleOutput) : Bool :=
  strContains (console_output.getLastD "") "Conversion failed!"

/-- The filter-graph configuration-error classification of `_render_interval`:
`"Error initializing complex filter" in str(console_output.stdout)`. -/
def filter_config_error (console_output : ConsoleOutput) : Bool :=
  console_output.any (fun line => strContains line "Error initializing complex filter")

/-- The exceptions `_render_interval` can raise: `IOError(f"Input file is
corrupted between {start} and {end} (in seconds)")` and
`ValueError("Invalid render options")`. -/
inductive RenderError where
  | corrupted (istart iend : ℚ)
  | invalid_render_options
deriving DecidableEq

/-- `RenderIntervalThread._render_interval`.  The engine is a function from
the attempt kind (`apply_filter`) to its console output.  Mirrors the source
control flow: on a conversion failure, drop (return `False`) when
`drop_corrupted_intervals`, else retry once with `apply_filter=False`
(result ignored, exceptions propagate) or, already on the raw path, raise
`IOError`; then the configuration-error check on the *current* output; then
return `True`. -/
def render_interval (engine : Bool → ConsoleOutput) (interval : Interval)
    (drop_corrupted_intervals : Bool) : (apply_filter : Bool) → Except RenderError Bool
  | false =>
    let console_output := engine false
    if conversion_failed console_output then
      if drop_corrupted_intervals then .ok false
      else .error (.corrupted interval.start interval.endTime)
    else if filter_config_error console_output then .error .invalid_render_options
    else .ok true
  | true =>
    let console_output := engine true
    if conversion_failed console_output then
      if drop_corrupted_intervals then .ok false
      else
        match render_interval engine interval drop_corrupted_intervals false with
        | .error e => .error e
        | .ok _ =>
          if filter_config_error console_output then .error .invalid_render_options
          else .ok true
    else if filter_config_error console_output then .error .invalid_render_options
    else .ok true
termination_by b => b.toNat
decreasing_by decide

/-- The per-task portion of `RenderIntervalThread.run`: render the interval
(filtered path first), then, when the render nominally succeeded and
`check_intervals` is set, flip `completed` to whether the `ffprobe` call
exits with code `0`.  The `ok` payload is the `failed` flag
(`not completed`) handed to the completion callback; an `error` is an
exception propagating out of `run`. -/
def run_task (engine : Bool → ConsoleOutput) (interval : Interval)
    (drop_corrupted_intervals check_intervals : Bool) (probe_returncode : Int) :
    Except RenderError Bool :=
  match render_interval engine interval drop_corrupted_intervals true with
  | .error e => .error e
  | .ok completed =>
    let completed := if completed && check_intervals then probe_returncode == 0 else completed
    .ok (!completed)

/-- Observable events of one iteration of the worker loop in
`RenderIntervalThread.run`. -/
inductive WorkerEvent where
  | lock_acquire
  | lock_release
  | callback (failed : Bool)
deriving DecidableEq

/-- Whether a worker event is a completion-callback invocation. -/
def is_callback : WorkerEvent → Bool
  | .callback _ => true
  | _ => false

/-- One iteration of the loop in `RenderIntervalThread.run`, as its event
trace: acquire the lock; if the queue is empty just release it; otherwise
take the task, release the lock, process the task, and invoke the completion
callback with the `failed` flag — unless an exception escapes
`_render_interval`, in which case the iteration ends with no callback. -/
def worker_iteration (engine : Bool → ConsoleOutput) (interval : Interval)
    (drop_corrupted_intervals check_intervals : Bool) (probe_returncode : Int)
    (queue_has_task : Bool) : List WorkerEvent :=
  if queue_has_task then
    [.lock_acquire, .lock_release] ++
      (match run_task engine interval drop_corrupted_intervals check_intervals
          probe_returncode with
       | .error _ => []
       | .ok failed => [.callback failed])
  else [.lock_acquire, .lock_release]

/-- `RenderIntervalThread.clamp_speed`. -/
def clamp_speed (duration speed : ℚ) (minimum_interval_duration : ℚ) : ℚ :=
  if duration / speed < minimum_interval_duration then duration / minimum_interval_duration
  else speed

/-- `RenderIntervalThread._get_fade_filter`. -/
def get_fade_filter (total_duration interval_in_fade_duration interval_out_fade_duration : ℚ)
    (fade_curve : String) (fmt4 : ℚ → String) : String :=
  String.intercalate ","
    ((if interval_in_fade_duration ≠ 0 then
        ["afade=t=in:st=0:d=" ++ fmt4 interval_in_fade_duration ++ ":curve=" ++ fade_curve]
      else []) ++
     (if interval_out_fade_duration ≠ 0 then
        ["afade=t=out:st=" ++ fmt4 (total_duration - interval_out_fade_duration) ++
          ":d=" ++ fmt4 interval_out_fade_duration ++ ":curve=" ++ fade_curve]
      else []))

/-- `RenderIntervalThread._generate_command`. -/
def generate_command (input_file : String) (opts : RenderOptions) (F : FloatFmt)
    (interval_output_file : String) (interval : Interval) (apply_filter : Bool)
    (minimum_interval_duration : ℚ) : List String :=
  let fade := get_fade_filter interval.duration opts.interval_in_fade_duration
    opts.interval_out_fade_duration opts.fade_curve F.fmt4
  let command := ["ffmpeg",
    "-ss", F.fmtStr interval.start,
    "-to", F.fmtStr interval.endTime,
    "-i", input_file,
    "-vsync", "1",
    "-async", "1",
    "-safe", "0",
    "-ignore_unknown", "-y"]
  if apply_filter then
    let current_speed := if interval.is_silent then opts.silent_speed else opts.audible_speed
    let current_volume := if interval.is_silent then opts.silent_volume else opts.audible_volume
    let current_speed := clamp_speed interval.duration current_speed minimum_interval_duration
    let complex_filter :=
      if !opts.audio_only then
        ["[0:v]setpts=" ++ F.fmtRound4 (1 / current_speed) ++ "*PTS[v]"]
      else []
    let fade := if fade ≠ "" then fade ++ "," else fade
    let complex_filter := complex_filter ++
      ["[0:a]" ++ fade ++ "atempo=" ++ F.fmtRound4 current_speed ++
        ",volume=" ++ F.fmtStr current_volume ++ "[a]"]
    let command := command ++ ["-filter_complex", String.intercalate ";" complex_filter]
    let command := command ++ (if !opts.audio_only then ["-map", "[v]"] else [])
    let command := command ++ ["-map", "[a]"]
    command ++ [interval_output_file]
  else
    let command := command ++ (if fade ≠ "" then ["-af", fade] else [])
    let command := command ++ (if opts.audio_only then ["-vn"] else [])
    command ++ [interval_output_file]

/-- The interval collection consumed by the facade. -/
abbrev IntervalCollection := List Interval

/-- `Unsilence.estimate_time`: raise
`ValueError("Silence detection was not yet run and no intervals where given manually!")`
when no interval collection has been set, else delegate to `calculate_time`
(a collaborator outside the modelled sources, passed as a parameter). -/
def estimate_time {α : Type} (intervals : Option IntervalCollection)
    (audible_speed silent_speed : ℚ) (calculate_time : IntervalCollection → ℚ → ℚ → α) :
    Except String α :=
  match intervals with
  | none => .error "Silence detection was not yet run and no intervals where given manually!"
  | some iv => .ok (calculate_time iv audible_speed silent_speed)

/-- Errors `Unsilence.render_media` can surface: the missing-intervals
precondition `ValueError`, or whatever the delegated renderer raises. -/
inductive UnsilenceError where
  | missing_intervals
  | render_failure (message : String)
deriving DecidableEq

/-- `Unsilence.render_media`: the missing-intervals precondition check,
then delegation to `MediaRenderer.render` (a collaborator outside the
modelled sources, passed as a parameter). -/
def render_media (intervals : Option IntervalCollection)
    (renderer : IntervalCollection → Except String Unit) : Except UnsilenceError Unit :=
  match intervals with
  | none => .error .missing_intervals
  | some iv =>
    match renderer iv with
    | .error e => .error (.render_failure e)
    | .ok _ => .ok ()

/-- `Unsilence.__init__`'s handling of `is_ffmpeg_usable()`: raise
`EnvironmentError` on `"not_detected"` or `"requirements_unsatisfied"`,
warn (but proceed) on `"unknown_version"`.  The `ok` payload records whether
the warning was printed. -/
def unsilence_init (ffmpeg_status : String) : Except String Bool :=
  if ffmpeg_status == "not_detected" then .error "ffmpeg not found!"
  else if ffmpeg_status == "requirements_unsatisfied" then
    .error "ffmpeg version not supported, a version >= 4.2.4 is required!"
  else .ok (ffmpeg_status == "unknown_version")

/-! ## Claims -/

/-- C4: for all positive `duration`, `speed` and `min_duration`,
`clamp_speed` returns `duration/min_duration` when `duration/speed <
min_duration` and `speed` unchanged otherwise; in particular
`clamp_speed 1 10 0.25 = 4` and `clamp_speed 1 2 0.25 = 2`. -/
theorem claim_C4_clamp_speed (duration speed minimum_interval_duration : ℚ)
    (hd : 0 < duration) (hs : 0 < speed) (hm : 0 < minimum_interval_duration) :
    clamp_speed duration speed minimum_interval_duration =
      (if duration / speed < minimum_interval_duration then
        duration / minimum_interval_duration
       else speed) ∧
    clamp_speed 1 10 (1/4) = 4 ∧ clamp_speed 1 2 (1/4) = 2 := by
  refine ⟨rfl, ?_, ?_⟩ <;> norm_num [clamp_speed]

/-- C4 witness: the theorem applied at `(1, 10, 1/4)`. -/
theorem claim_C4_witness : clamp_speed 1 10 (1/4) = 4 ∧ clamp_speed 1 2 (1/4) = 2 :=
  (claim_C4_clamp_speed 1 10 (1/4) (by norm_num) (by norm_num) (by norm_num)).2

/-- C5: a filtered-attempt conversion failure with `drop_corrupted_intervals`
enabled makes the task dropped (`.ok false`, the soft-failure flag passed to
the callback), with no exception; the engine's raw-path behaviour is
universally quantified, so no raw retry influences the outcome. -/
theorem claim_C5_drop_corrupted (engine : Bool → ConsoleOutput) (interval : Interval)
    (h : conversion_failed (engine true) = true) :
    render_interval engine interval true true = .ok false := by
  simp [render_interval, h]

/-- C5 witness: a concrete conversion-failed filtered output, dropping
enabled. -/
theorem claim_C5_witness :
    render_interval (fun _ => ["Conversion failed!"]) ⟨0, 1, false⟩ true true = .ok false :=
  claim_C5_drop_corrupted (fun _ => ["Conversion failed!"]) ⟨0, 1, false⟩ (by decide)

/-- C2 (amended): a render attempt whose output contains the
filter-configuration-error marker and does *not* match the
conversion-failure marker raises `ValueError("Invalid render options")`,
on either path and regardless of `drop_corrupted_intervals`. -/
theorem claim_C2_filter_config_fatal (engine : Bool → ConsoleOutput) (interval : Interval)
    (drop_corrupted_intervals apply_filter : Bool)
    (hcfg : filter_config_error (engine apply_filter) = true)
    (hconv : conversion_failed (engine apply_filter) = false) :
    render_interval engine interval drop_corrupted_intervals apply_filter =
      .error .invalid_render_options := by
  cases apply_filter <;> simp [render_interval, hcfg, hconv]

/-- C2 witness: a concrete configuration-error output with dropping enabled
still raises the configuration error. -/
theorem claim_C2_witness :
    render_interval (fun _ => ["Error initializing complex filter"]) ⟨0, 1, false⟩ true true =
      .error .invalid_render_options :=
  claim_C2_filter_config_fatal (fun _ => ["Error initializing complex filter"]) ⟨0, 1, false⟩
    true true (by decide) (by decide)

/-- C2 counterexample: an output matching *both* markers with
`drop_corrupted_intervals` enabled is dropped (`.ok false`) — the
conversion-failure branch returns before the configuration-error check, so
no fatal configuration error is raised, contradicting the claim's
"regardless" clauses. -/
theorem claim_C2_counterexample :
    filter_config_error ((fun (_ : Bool) =>
        ["Error initializing complex filter", "Conversion failed!"]) true) = true ∧
    render_interval (fun _ => ["Error initializing complex filter", "Conversion failed!"])
      ⟨0, 1, false⟩ true true = .ok false := by
  have h : conversion_failed ((fun (_ : Bool) =>
      ["Error initializing complex filter", "Conversion failed!"]) true) = true := by decide
  exact ⟨by decide, by simp [render_interval, h]⟩

/-- C1 (amended): on a filtered-attempt conversion failure with dropping
disabled — provided the filtered output does not also contain the
filter-configuration-error marker — the worker retries once on the raw
path: a raw conversion failure raises the fatal `IOError` carrying the
interval's `start`/`end` bounds, and a successful raw attempt makes the
task outcome success. -/
theorem claim_C1_retry_policy (engine : Bool → ConsoleOutput) (interval : Interval)
    (hconv : conversion_failed (engine true) = true)
    (hcfg : filter_config_error (engine true) = false) :
    (conversion_failed (engine false) = true →
      render_interval engine interval false true =
        .error (.corrupted interval.start interval.endTime)) ∧
    (render_interval engine interval false false = .ok true →
      render_interval engine interval false true = .ok true) := by
  constructor
  · intro hraw
    rw [render_interval]
    simp [render_interval, hconv, hraw]
  · intro hok
    rw [render_interval]
    simp [hconv, hcfg, hok]

/-- C1 witness: filtered output reporting only a conversion failure, raw
attempt clean — the retry succeeds and the task outcome is success. -/
theorem claim_C1_witness :
    render_interval (fun af => if af then ["Conversion failed!"] else [""])
      ⟨0, 1, false⟩ false true = .ok true := by
  have hraw : render_interval (fun af => if af then ["Conversion failed!"] else [""])
      ⟨0, 1, false⟩ false false = .ok true := by
    have h1 : conversion_failed [""] = false := by decide
    have h2 : filter_config_error [""] = false := by decide
    simp [render_interval, h1, h2]
  exact (claim_C1_retry_policy (fun af => if af then ["Conversion failed!"] else [""])
    ⟨0, 1, false⟩ (by decide) (by decide)).2 hraw

/-- C1 counterexample: the filtered output reports a conversion failure but
also contains the configuration-error marker; the raw retry succeeds, yet
the worker raises `ValueError` on the post-retry configuration check of the
filtered output — the task outcome is not success, contradicting the
claim's "if the raw attempt succeeds the task outcome is success". -/
theorem claim_C1_counterexample :
    conversion_failed ((fun (af : Bool) =>
        if af then ["Error initializing complex filter", "Conversion failed!"] else [""])
        true) = true ∧
    render_interval
        (fun af => if af then ["Error initializing complex filter", "Conversion failed!"]
          else [""]) ⟨0, 1, false⟩ false false = .ok true ∧
    render_interval
        (fun af => if af then ["Error initializing complex filter", "Conversion failed!"]
          else [""]) ⟨0, 1, false⟩ false true = .error .invalid_render_options := by
  have hconv : conversion_failed
      ["Error initializing complex filter", "Conversion failed!"] = true := by decide
  have hcfg : filter_config_error
      ["Error initializing complex filter", "Conversion failed!"] = true := by decide
  have hrawconv : conversion_failed [""] = false := by decide
  have hrawcfg : filter_config_error [""] = false := by decide
  have hraw : render_interval
      (fun af => if af then ["Error initializing complex filter", "Conversion failed!"]
        else [""]) ⟨0, 1, false⟩ false false = .ok true := by
    simp [render_interval, hrawconv, hrawcfg]
  refine ⟨by decide, hraw, ?_⟩
  rw [render_interval]
  simp [hconv, hcfg, hraw]

/-- C3 (amended): for every task taken from the queue, when per-task
processing completes without a fatal error the worker invokes the
completion callback exactly once with the `failed` flag, after the queue
lock is released (outside any lock); when processing raises a fatal error,
the error propagates out of the worker and the callback is not invoked. -/
theorem claim_C3_callback_once (engine : Bool → ConsoleOutput) (interval : Interval)
    (drop_corrupted_intervals check_intervals : Bool) (probe_returncode : Int) :
    (∀ f, run_task engine interval drop_corrupted_intervals check_intervals
        probe_returncode = .ok f →
      worker_iteration engine interval drop_corrupted_intervals check_intervals
          probe_returncode true =
        [.lock_acquire, .lock_release, .callback f]) ∧
    (∀ e, run_task engine interval drop_corrupted_intervals check_intervals
        probe_returncode = .error e →
      worker_iteration engine interval drop_corrupted_intervals check_intervals
          probe_returncode true =
        [.lock_acquire, .lock_release]) := by
  constructor <;> intro x h <;> simp [worker_iteration, h]

/-- C3 witness: a clean render with `check_intervals` off yields the trace
`[acquire, release, callback false]`. -/
theorem claim_C3_witness :
    worker_iteration (fun _ => [""]) ⟨0, 1, false⟩ false false 0 true =
      [.lock_acquire, .lock_release, .callback false] := by
  apply (claim_C3_callback_once (fun _ => [""]) ⟨0, 1, false⟩ false false 0).1
  have h1 : conversion_failed ((fun (_ : Bool) => [""]) true) = false := by decide
  have h2 : filter_config_error ((fun (_ : Bool) => [""]) true) = false := by decide
  simp [run_task, render_interval, h1, h2]

/-- C3 counterexample: a task is taken (`queue_has_task = true`) but its
processing ends in the fatal configuration error, so the iteration trace
contains no callback event at all — the completion callback is not invoked
on terminal failures, contradicting the claim. -/
theorem claim_C3_counterexample :
    run_task (fun _ => ["Error initializing complex filter"]) ⟨0, 1, false⟩ false false 0 =
      .error .invalid_render_options ∧
    worker_iteration (fun _ => ["Error initializing complex filter"]) ⟨0, 1, false⟩
      false false 0 true = [.lock_acquire, .lock_release] := by
  have h1 : conversion_failed ((fun (_ : Bool) =>
      ["Error initializing complex filter"]) true) = false := by decide
  have h2 : filter_config_error ((fun (_ : Bool) =>
      ["Error initializing complex filter"]) true) = true := by decide
  have hrun : run_task (fun _ => ["Error initializing complex filter"]) ⟨0, 1, false⟩
      false false 0 = .error .invalid_render_options := by
    simp [run_task, render_interval, h1, h2]
  exact ⟨hrun, by simp [worker_iteration, hrun]⟩

/-- C6: with `check_intervals` set, a nominally successful render is probed
and the reported outcome is failed exactly when the probe's exit code is
non-zero; a render that did not nominally succeed (a dropped task) is
reported failed for every probe exit code and every `check_intervals`
value, i.e. the probe runs only on nominal successes and triggers no
retry. -/
theorem claim_C6_probe (engine : Bool → ConsoleOutput) (interval : Interval)
    (drop_corrupted_intervals check_intervals : Bool) (probe_returncode : Int) :
    (render_interval engine interval drop_corrupted_intervals true = .ok true →
      run_task engine interval drop_corrupted_intervals true probe_returncode =
        .ok (decide (probe_returncode ≠ 0))) ∧
    (render_interval engine interval drop_corrupted_intervals true = .ok false →
      run_task engine interval drop_corrupted_intervals check_intervals probe_returncode =
        .ok true) := by
  constructor
  · intro h
    by_cases hrc : probe_returncode = 0 <;> simp [run_task, h, hrc]
  · intro h
    simp [run_task, h]

/-- C6 witness: a clean render probed with exit code 2 is reported failed;
a dropped render is reported failed without consulting the probe. -/
theorem claim_C6_witness :
    run_task (fun _ => [""]) ⟨0, 1, false⟩ false true 2 = .ok true ∧
    run_task (fun _ => ["Conversion failed!"]) ⟨0, 1, false⟩ true true 2 = .ok true := by
  constructor
  · have hrender : render_interval (fun _ => [""]) ⟨0, 1, false⟩ false true = .ok true := by
      have h1 : conversion_failed ((fun (_ : Bool) => [""]) true) = false := by decide
      have h2 : filter_config_error ((fun (_ : Bool) => [""]) true) = false := by decide
      simp [render_interval, h1, h2]
    have := (claim_C6_probe (fun _ => [""]) ⟨0, 1, false⟩ false true 2).1 hrender
    simpa using this
  · have hrender : render_interval (fun _ => ["Conversion failed!"]) ⟨0, 1, false⟩ true true =
        .ok false := by
      have h : conversion_failed ((fun (_ : Bool) => ["Conversion failed!"]) true) = true := by
        decide
      simp [render_interval, h]
    exact (claim_C6_probe (fun _ => ["Conversion failed!"]) ⟨0, 1, false⟩ true true 2).2 hrender

/-- C7: the filtered command carries one complex filter graph whose speed
and volume are selected by the interval's `is_silent` tag (silent →
`silent_speed`/`silent_volume`, else the audible variants, then the speed
clamp); it contains the video timestamp-scaling stage by the inverse of the
clamped speed exactly when `audio_only` is false; and the optional fade-in
(from time 0) and fade-out (starting at `duration − fade_out_duration`) are
composed before the `atempo` stage of the audio chain. -/
theorem claim_C7_filter_graph (input_file interval_output_file : String)
    (opts : RenderOptions) (F : FloatFmt) (interval : Interval)
    (minimum_interval_duration : ℚ) :
    let current_speed := clamp_speed interval.duration
      (if interval.is_silent then opts.silent_speed else opts.audible_speed)
      minimum_interval_duration
    let current_volume := if interval.is_silent then opts.silent_volume else opts.audible_volume
    let fade := String.intercalate ","
      ((if opts.interval_in_fade_duration ≠ 0 then
          ["afade=t=in:st=0:d=" ++ F.fmt4 opts.interval_in_fade_duration ++ ":curve=" ++
            opts.fade_curve]
        else []) ++
       (if opts.interval_out_fade_duration ≠ 0 then
          ["afade=t=out:st=" ++ F.fmt4 (interval.duration - opts.interval_out_fade_duration) ++
            ":d=" ++ F.fmt4 opts.interval_out_fade_duration ++ ":curve=" ++ opts.fade_curve]
        else []))
    let audio_stage := "[0:a]" ++ (if fade ≠ "" then fade ++ "," else "") ++
      "atempo=" ++ F.fmtRound4 current_speed ++ ",volume=" ++ F.fmtStr current_volume ++ "[a]"
    let video_stage := "[0:v]setpts=" ++ F.fmtRound4 (1 / current_speed) ++ "*PTS[v]"
    ∃ pre post,
      generate_command input_file opts F interval_output_file interval true
          minimum_interval_duration =
        pre ++ ["-filter_complex",
          if opts.audio_only then audio_stage else video_stage ++ ";" ++ audio_stage] ++ post := by
  intro current_speed current_volume fade audio_stage video_stage
  refine ⟨["ffmpeg", "-ss", F.fmtStr interval.start, "-to", F.fmtStr interval.endTime,
    "-i", input_file, "-vsync", "1", "-async", "1", "-safe", "0", "-ignore_unknown", "-y"],
    (if !opts.audio_only then ["-map", "[v]"] else []) ++ ["-map", "[a]",
      interval_output_file], ?_⟩
  by_cases hf : get_fade_filter interval.duration opts.interval_in_fade_duration
      opts.interval_out_fade_duration opts.fade_curve F.fmt4 = "" <;>
    cases ha : opts.audio_only <;>
      simp [generate_command, get_fade_filter, ha, audio_stage, video_stage, fade,
        current_speed, current_volume, String.intercalate, hf] at hf ⊢ <;>
      simp [hf] <;> rfl

/-- C8: on both paths the generated command opens with the trim arguments
`-ss interval.start -to interval.end` right after the program name, so the
trim precedes every later argument — in particular the filter arguments
(`-filter_complex` on the filtered path, `-af` on the raw path when a fade
is present), which sit in the remainder of the command. -/
theorem claim_C8_trim_arguments (input_file interval_output_file : String)
    (opts : RenderOptions) (F : FloatFmt) (interval : Interval) (apply_filter : Bool)
    (minimum_interval_duration : ℚ) :
    (generate_command input_file opts F interval_output_file interval apply_filter
        minimum_interval_duration).take 5 =
      ["ffmpeg", "-ss", F.fmtStr interval.start, "-to", F.fmtStr interval.endTime] ∧
    (apply_filter = true →
      "-filter_complex" ∈
        (generate_command input_file opts F interval_output_file interval apply_filter
          minimum_interval_duration).drop 5) ∧
    (apply_filter = false →
      get_fade_filter interval.duration opts.interval_in_fade_duration
        opts.interval_out_fade_duration opts.fade_curve F.fmt4 ≠ "" →
      "-af" ∈
        (generate_command input_file opts F interval_output_file interval apply_filter
          minimum_interval_duration).drop 5) := by
  refine ⟨?_, ?_, ?_⟩
  · cases apply_filter <;> simp [generate_command]
  · intro h; subst h; simp [generate_command]
  · intro h hf; subst h; simp [generate_command, hf]

/-- C8 witness: concrete options with a one-second fade on both ends; the
filtered command carries `-filter_complex` and the raw command `-af`, both
past the trim prefix. -/
theorem claim_C8_witness :
    "-filter_complex" ∈
      (generate_command "in.mp4" ⟨1, 6, 1, 1/2, false, false, false, 1, 1, "tri"⟩
        ⟨fun _ => "q", fun _ => "q", fun _ => "q"⟩ "out.mp4" ⟨0, 1, false⟩ true 1).drop 5 ∧
    "-af" ∈
      (generate_command "in.mp4" ⟨1, 6, 1, 1/2, false, false, false, 1, 1, "tri"⟩
        ⟨fun _ => "q", fun _ => "q", fun _ => "q"⟩ "out.mp4" ⟨0, 1, false⟩ false 1).drop 5 := by
  constructor
  · exact (claim_C8_trim_arguments "in.mp4" "out.mp4"
      ⟨1, 6, 1, 1/2, false, false, false, 1, 1, "tri"⟩
      ⟨fun _ => "q", fun _ => "q", fun _ => "q"⟩ ⟨0, 1, false⟩ true 1).2.1 rfl
  · refine (claim_C8_trim_arguments "in.mp4" "out.mp4"
      ⟨1, 6, 1, 1/2, false, false, false, 1, 1, "tri"⟩
      ⟨fun _ => "q", fun _ => "q", fun _ => "q"⟩ ⟨0, 1, false⟩ false 1).2.2 rfl ?_
    decide

/-- C9: `estimate_time` and `render_media` raise the missing-intervals
precondition error exactly when no interval collection has been set, before
any other work (the delegated `calculate_time`/renderer are universally
quantified, hence not consulted); with intervals set, `estimate_time`
delegates and neither raises this precondition error. -/
theorem claim_C9_missing_intervals (α : Type) (intervals : Option IntervalCollection)
    (audible_speed silent_speed : ℚ) (calculate_time : IntervalCollection → ℚ → ℚ → α)
    (renderer : IntervalCollection → Except String Unit) :
    ((∃ e, estimate_time intervals audible_speed silent_speed calculate_time = .error e) ↔
      intervals = none) ∧
    (render_media intervals renderer = .error .missing_intervals ↔ intervals = none) ∧
    (∀ iv, intervals = some iv →
      estimate_time intervals audible_speed silent_speed calculate_time =
        .ok (calculate_time iv audible_speed silent_speed)) := by
  cases intervals with
  | none => simp [estimate_time, render_media]
  | some iv =>
    refine ⟨by simp [estimate_time], ?_, by simp [estimate_time]⟩
    simp only [render_media]
    cases renderer iv <;> simp

/-- C9 witness: with a set interval collection, `estimate_time` returns the
delegated calculation. -/
theorem claim_C9_witness :
    estimate_time (some [⟨0, 1, false⟩]) 1 6 (fun _ a s => (a, s)) = .ok ((1 : ℚ), (6 : ℚ)) :=
  (claim_C9_missing_intervals (ℚ × ℚ) (some [⟨0, 1, false⟩]) 1 6 (fun _ a s => (a, s))
    (fun _ => .ok ())).2.2 [⟨0, 1, false⟩] rfl

/-- C10: session construction raises `EnvironmentError` exactly for the
ffmpeg statuses `"not_detected"` and `"requirements_unsatisfied"`; for
`"unknown_version"` construction succeeds with the warning printed. -/
theorem claim_C10_init_env_check (s : String) :
    ((∃ e, unsilence_init s = .error e) ↔
      s = "not_detected" ∨ s = "requirements_unsatisfied") ∧
    unsilence_init "unknown_version" = .ok true := by
  refine ⟨⟨?_, ?_⟩, by rfl⟩
  · intro ⟨e, he⟩
    simp only [unsilence_init] at he
    split_ifs at he with h1 h2
    · exact Or.inl (by simpa using h1)
    · exact Or.inr (by simpa using h2)
  · intro h
    rcases h with h | h <;> subst h <;> exact ⟨_, rfl⟩

end Unsilence
